import Mathlib

/-!
# Verification of `DeferObservable` (deferred producer combinator)

Shallow embedding of `src/internal/observable/DeferObservable.ts` and of the
interfaces of its collaborators (the `Subscriber`/`Subscription`/
`OuterSubscriber` base classes and the `subscribeToResult` normalization
helper, which are outside this repository's sources and are therefore
modelled from the specification).

The embedding is trace-based: every operation returns its resulting state
together with the ordered list of observable events it performed (factory
invocations, calls delivered to the downstream consumer, child-resource
registrations and releases).
-/

namespace DeferSpec

/-- A signal delivered to a consumer: a value, a terminal error carrying a
payload, or terminal completion. `α` is the value type, `β` the error type. -/
inductive Signal (α β : Type) where
  | next (a : α)
  | error (e : β)
  | complete
  deriving DecidableEq, Repr

/-- An error value in the host language: either a user-level payload (thrown
by a factory or emitted by an inner producer) or the `TypeError` raised when
a non-callable is invoked or the normalization collaborator receives an
input it cannot interpret. -/
inductive JsError (ε : Type) where
  | user (e : ε)
  | typeError
  deriving DecidableEq, Repr

/-- A host-language value as returned by the factory
(`ObservableInput<T> | void` in the source). `vobs` is an
already-conformant producer, modelled by the finite list of signals it
pushes synchronously to a subscriber; `varr` is a sequence input. The
remaining constructors model non-producer values, some falsy, some truthy. -/
inductive JSValue (α ε : Type) where
  | vundefined
  | vnull
  | vbool (b : Bool)
  | vnum (n : Int)
  | vstr (s : String)
  | vobs (sigs : List (Signal α (JsError ε)))
  | varr (xs : List α)
  deriving DecidableEq, Repr

/-- JavaScript truthiness of a value, as tested by `if (result)` in
`DeferSubscriber._callFactory`. -/
def JSValue.truthy : JSValue α ε → Bool
  | .vundefined => false
  | .vnull => false
  | .vbool b => b
  | .vnum n => n != 0
  | .vstr s => s != ""
  | .vobs _ => true
  | .varr _ => true

/-- An observable event performed during an operation: an invocation of the
stored factory, a signal call made on the downstream consumer, or the
registration / release of a child resource (identified by a numeric id). -/
inductive Event (α ε : Type) where
  | factoryInvoked
  | signal (s : Signal α (JsError ε))
  | childAdded (id : Nat)
  | childReleased (id : Nat)
  deriving DecidableEq, Repr

/-- Is this event a call on the downstream consumer? -/
def Event.isSignal : Event α ε → Bool
  | .signal _ => true
  | _ => false

/-- Is this event a factory invocation? -/
def Event.isFactoryInvoked : Event α ε → Bool
  | .factoryInvoked => true
  | _ => false

/-- Is this event the registration of a child resource? -/
def Event.isChildAdded : Event α ε → Bool
  | .childAdded _ => true
  | _ => false

/-- Is this event a child-resource event (registration or release)? -/
def Event.isChildEvent : Event α ε → Bool
  | .childAdded _ => true
  | .childReleased _ => true
  | _ => false

/-- The sequence of signals the downstream consumer receives in a trace. -/
def downstream (evs : List (Event α ε)) : List (Signal α (JsError ε)) :=
  evs.filterMap fun e => match e with
    | .signal s => some s
    | _ => none

/-- Is this signal terminal (error or completion)? -/
def Signal.isTerminal : Signal α β → Bool
  | .next _ => false
  | _ => true

/-- Does the signal list contain a terminal signal? -/
def hasTerminal (sigs : List (Signal α β)) : Bool :=
  sigs.any Signal.isTerminal

/-- Number of factory invocations appearing in a trace. -/
def countFactory (evs : List (Event α ε)) : Nat :=
  (evs.filter Event.isFactoryInvoked).length

/-- A factory: a zero-argument function over an external world state `σ`
that either throws an error or returns a value, possibly mutating `σ`. -/
structure Factory (α ε σ : Type) where
  run : σ → Except (JsError ε) (JSValue α ε) × σ

/-- The argument passed to `DeferObservable.create` / the constructor: in the
host language this may be any value; a non-callable one raises a `TypeError`
only when it is eventually invoked. -/
inductive FactoryArg (α ε σ : Type) where
  | callable (f : Factory α ε σ)
  | notCallable

/-- Invoking the stored factory argument: a callable runs; invoking a
non-callable throws a `TypeError` and leaves the world unchanged. -/
def FactoryArg.invoke : FactoryArg α ε σ → σ → Except (JsError ε) (JSValue α ε) × σ
  | .callable f, s => f.run s
  | .notCallable, s => (.error .typeError, s)

/-- `DeferObservable<T>`: stores the factory argument; nothing else. -/
structure DeferObservable (α ε σ : Type) where
  observableFactory : FactoryArg α ε σ

/-- The state of a `DeferSubscriber` together with the external world.
`isStopped` and `closed` are the base `Subscriber`/`Subscription` flags
(modelled from the spec: a consumer forwards at most one terminal signal,
after which it is stopped, and releasing is recorded by `closed`);
`children` holds the ids of registered, not yet released child resources;
`nextChildId` allocates fresh ids. -/
structure SubState (σ : Type) where
  env : σ
  isStopped : Bool
  closed : Bool
  children : List Nat
  nextChildId : Nat
  deriving Repr

/-- The fresh state a newly constructed `DeferSubscriber` starts from. -/
def freshState (env : σ) : SubState σ :=
  { env := env, isStopped := false, closed := false, children := [], nextChildId := 0 }

/-- Modelled from the spec: releasing the DelegatingConsumer "releases every
owned child resource exactly once; releasing is idempotent — a second
release call is a no-op". Unsubscribing a closed consumer does nothing;
otherwise it marks the consumer stopped and closed and releases each owned
child resource. -/
def unsubscribe (st : SubState σ) : SubState σ × List (Event α ε) :=
  if st.closed then (st, [])
  else ({ st with isStopped := true, closed := true, children := [] },
        st.children.map Event.childReleased)

/-- Modelled from the spec: the delegation base routes each inner-producer
signal through the consumer protocol — "a DelegatingConsumer forwards at
most one terminal signal (error or completion) to downstream, after which no
further signal of any kind is forwarded and all owned resources are
released". A value signal is forwarded when not stopped; a terminal signal
is forwarded, stops the consumer, and triggers teardown. -/
def deliver (st : SubState σ) (s : Signal α (JsError ε)) : SubState σ × List (Event α ε) :=
  if st.isStopped then (st, [])
  else
    match s with
    | .next a => (st, [.signal (.next a)])
    | .error e =>
        let p := unsubscribe (α := α) (ε := ε) { st with isStopped := true }
        (p.1, .signal (.error e) :: p.2)
    | .complete =>
        let p := unsubscribe (α := α) (ε := ε) { st with isStopped := true }
        (p.1, .signal .complete :: p.2)

/-- Deliver a whole sequence of inner-producer signals, in order. -/
def notifySignals (st : SubState σ) : List (Signal α (JsError ε)) → SubState σ × List (Event α ε)
  | [] => (st, [])
  | s :: rest =>
      let p := deliver st s
      let q := notifySignals p.1 rest
      (q.1, p.2 ++ q.2)

/-- Modelled from the spec: registering a child resource with the
DelegatingConsumer (`this.add(...)`). "Implementers must ensure the
child-resource registration ... is safe under such re-entrancy": adding to
an already released consumer does not register the resource but releases it
immediately, so that it is still released exactly once. -/
def addChild (st : SubState σ) (id : Nat) : SubState σ × List (Event α ε) :=
  if st.closed then (st, [.childReleased id])
  else ({ st with children := st.children ++ [id] }, [.childAdded id])

/-- Modelled from the spec: the normalization collaborator's interpretation
of an input — it "must accept already-conformant producers unchanged, and
must accept ... a finite ordered sequence (converted to
per-element-emit-then-complete)", and recognizes nothing else. -/
def normalizeInput : JSValue α ε → Option (List (Signal α (JsError ε)))
  | .vobs sigs => some sigs
  | .varr xs => some (xs.map Signal.next ++ [Signal.complete])
  | _ => none

/-- Modelled from the spec: `subscribeToResult(outerSubscriber, result)`
normalizes `result` to a producer and subscribes the outer subscriber to it,
returning the inner subscription handle; it "must fail ... for unrecognized
input shapes", which it does by throwing synchronously. The synchronous
signals of the normalized producer flow through the outer subscriber before
the call returns. -/
def subscribeToResult (st : SubState σ) (v : JSValue α ε) :
    Except (JsError ε) (SubState σ × List (Event α ε) × Nat) :=
  match normalizeInput v with
  | none => .error .typeError
  | some sigs =>
      let id := st.nextChildId
      let p := notifySignals { st with nextChildId := id + 1 } sigs
      .ok (p.1, p.2, id)

/-- `DeferSubscriber._callFactory`: invoke the factory; if the result is
truthy, `this.add(subscribeToResult(this, result))`. Errors thrown by the
factory or by `subscribeToResult` propagate to the caller together with the
events performed so far. -/
def callFactory (arg : FactoryArg α ε σ) (st : SubState σ) :
    Except (JsError ε × SubState σ) (SubState σ) × List (Event α ε) :=
  let r := arg.invoke st.env
  let st1 := { st with env := r.2 }
  match r.1 with
  | .error e => (.error (e, st1), [.factoryInvoked])
  | .ok result =>
      if result.truthy then
        match subscribeToResult st1 result with
        | .error e => (.error (e, st1), [.factoryInvoked])
        | .ok (st2, evs, id) =>
            let p := addChild st2 id
            (.ok p.1, .factoryInvoked :: (evs ++ p.2))
      else (.ok st1, [.factoryInvoked])

/-- `DeferSubscriber.tryDefer`: `try { this._callFactory(); } catch (err)
{ this._error(err); }` — a thrown error is forwarded downstream as a
terminal error signal. -/
def tryDefer (arg : FactoryArg α ε σ) (st : SubState σ) : SubState σ × List (Event α ε) :=
  match callFactory arg st with
  | (.ok st1, evs) => (st1, evs)
  | (.error (e, st1), evs) =>
      let p := deliver st1 (.error e)
      (p.1, evs ++ p.2)

/-- Construction of a `DeferObservable` via its constructor: it stores the
factory argument and performs no events. -/
def DeferObservable.constructRun (arg : FactoryArg α ε σ) :
    DeferObservable α ε σ × List (Event α ε) :=
  (⟨arg⟩, [])

/-- `DeferObservable.create`: `return new DeferObservable(observableFactory)`. -/
def DeferObservable.createRun (arg : FactoryArg α ε σ) :
    DeferObservable α ε σ × List (Event α ε) :=
  DeferObservable.constructRun arg

/-- `DeferObservable._subscribe`: `return new DeferSubscriber(subscriber,
this.observableFactory)` — the `DeferSubscriber` constructor runs
`tryDefer` synchronously from a fresh state. -/
def DeferObservable.subscribeRun (obs : DeferObservable α ε σ) (env : σ) :
    SubState σ × List (Event α ε) :=
  tryDefer obs.observableFactory (freshState env)

/-- Following the spec's words (for the pass-through comparison of P6): the
signal sequence a consumer observes when subscribing directly to a producer
that pushes `sigs` — every signal in order, cut off after the first
terminal signal. -/
def directObservation : List (Signal α β) → List (Signal α β)
  | [] => []
  | .next a :: rest => .next a :: directObservation rest
  | .error e :: _ => [.error e]
  | .complete :: _ => [.complete]

/-- A downstream signal sequence is protocol-conformant: after the first
terminal signal, nothing further is delivered (hence at most one terminal
and never a value after a terminal). -/
def atMostOneTerminal : List (Signal α β) → Bool
  | [] => true
  | .next _ :: rest => atMostOneTerminal rest
  | _ :: rest => rest.isEmpty

/-- In a trace, once a child resource has been registered, no further call is
made on the downstream consumer. -/
def noSignalAfterAdd : List (Event α ε) → Bool
  | [] => true
  | e :: rest =>
      if e.isChildAdded then rest.all fun x => !x.isSignal
      else noSignalAfterAdd rest

/-- Well-formedness of a subscriber state: a released (closed) consumer owns
no child resources.  Every state reachable from `freshState` satisfies it. -/
def WF (st : SubState σ) : Prop := st.closed = true → st.children = []

/-- The subscriber state right after a factory invocation that returned a
normalizable value, before its signals are delivered: fresh flags, the
factory's new world, and child id `0` allocated for the inner subscription. -/
def postFactoryState (env' : σ) : SubState σ :=
  { env := env', isStopped := false, closed := false, children := [], nextChildId := 1 }

/-- A factory over a `Nat` counter world that increments the counter and
returns a one-element sequence carrying the new counter value (the spec's
per-subscriber freshness scenario). -/
def counterFactory : Factory Nat Nat Nat :=
  ⟨fun n => (.ok (.varr [n + 1]), n + 1)⟩

/-- A factory that always throws the user error `7`. -/
def throwFactory : Factory Nat Nat Nat :=
  ⟨fun n => (.error (.user 7), n)⟩

/-- A factory that returns the numeric zero (a falsy value). -/
def zeroFactory : Factory Nat Nat Nat :=
  ⟨fun n => (.ok (.vnum 0), n)⟩

/-- A factory that returns the number one: truthy, but not a producer input
the normalization collaborator can interpret. -/
def oneFactory : Factory Nat Nat Nat :=
  ⟨fun n => (.ok (.vnum 1), n)⟩

/-- A factory that returns an already-conformant producer pushing
`1, 2, 3` and then completing. -/
def threeFactory : Factory Nat Nat Nat :=
  ⟨fun n => (.ok (.vobs [.next 1, .next 2, .next 3, .complete]), n)⟩

section Lemmas

variable {α ε σ : Type} {β : Type}

@[simp]
theorem downstream_nil : downstream ([] : List (Event α ε)) = [] := rfl

@[simp]
theorem downstream_cons_factoryInvoked (evs : List (Event α ε)) :
    downstream (Event.factoryInvoked :: evs) = downstream evs := by
  simp [downstream]

@[simp]
theorem downstream_cons_signal (s : Signal α (JsError ε)) (evs : List (Event α ε)) :
    downstream (Event.signal s :: evs) = s :: downstream evs := by
  simp [downstream]

@[simp]
theorem downstream_cons_childAdded (id : Nat) (evs : List (Event α ε)) :
    downstream (Event.childAdded id :: evs) = downstream evs := by
  simp [downstream]

@[simp]
theorem downstream_cons_childReleased (id : Nat) (evs : List (Event α ε)) :
    downstream (Event.childReleased id :: evs) = downstream evs := by
  simp [downstream]

@[simp]
theorem downstream_append (a b : List (Event α ε)) :
    downstream (a ++ b) = downstream a ++ downstream b := by
  simp [downstream]

@[simp]
theorem downstream_map_childReleased (l : List Nat) :
    downstream (l.map (Event.childReleased (α := α) (ε := ε))) = [] := by
  induction l with
  | nil => rfl
  | cons i l ih => simpa using ih

@[simp]
theorem downstream_unsubscribe (st : SubState σ) :
    downstream (unsubscribe (α := α) (ε := ε) st).2 = [] := by
  unfold unsubscribe
  split
  · rfl
  · simp

@[simp]
theorem downstream_addChild (st : SubState σ) (id : Nat) :
    downstream (addChild (α := α) (ε := ε) st id).2 = [] := by
  unfold addChild
  split <;> simp

@[simp]
theorem countFactory_nil : countFactory ([] : List (Event α ε)) = 0 := rfl

@[simp]
theorem countFactory_cons (e : Event α ε) (evs : List (Event α ε)) :
    countFactory (e :: evs) =
      (if e.isFactoryInvoked then 1 else 0) + countFactory evs := by
  unfold countFactory
  rw [List.filter_cons]
  split
  · simp [Nat.add_comm]
  · simp

@[simp]
theorem countFactory_append (a b : List (Event α ε)) :
    countFactory (a ++ b) = countFactory a + countFactory b := by
  simp [countFactory]

@[simp]
theorem countFactory_map_childReleased (l : List Nat) :
    countFactory (l.map (Event.childReleased (α := α) (ε := ε))) = 0 := by
  induction l with
  | nil => rfl
  | cons i l ih => simpa [Event.isFactoryInvoked] using ih

@[simp]
theorem countFactory_unsubscribe (st : SubState σ) :
    countFactory (unsubscribe (α := α) (ε := ε) st).2 = 0 := by
  unfold unsubscribe
  split
  · rfl
  · simp

@[simp]
theorem countFactory_deliver (st : SubState σ) (s : Signal α (JsError ε)) :
    countFactory (deliver st s).2 = 0 := by
  unfold deliver
  split
  · rfl
  · cases s <;> simp [Event.isFactoryInvoked]

@[simp]
theorem countFactory_notifySignals (st : SubState σ) (sigs : List (Signal α (JsError ε))) :
    countFactory (notifySignals st sigs).2 = 0 := by
  induction sigs generalizing st with
  | nil => rfl
  | cons s rest ih => simp [notifySignals, ih]

@[simp]
theorem countFactory_addChild (st : SubState σ) (id : Nat) :
    countFactory (addChild (α := α) (ε := ε) st id).2 = 0 := by
  unfold addChild
  split <;> rfl

theorem notifySignals_stopped (st : SubState σ) (sigs : List (Signal α (JsError ε)))
    (h : st.isStopped = true) :
    notifySignals st sigs = (st, []) := by
  induction sigs with
  | nil => rfl
  | cons s rest ih => simp [notifySignals, deliver, h, ih]

theorem unsubscribe_isStopped (st : SubState σ) (h : st.isStopped = true) :
    ((unsubscribe (α := α) (ε := ε) st).1).isStopped = true := by
  unfold unsubscribe
  split
  · exact h
  · rfl

theorem notifySignals_step_next (st : SubState σ) (a : α)
    (rest : List (Signal α (JsError ε))) (h : st.isStopped = false) :
    notifySignals st (Signal.next a :: rest) =
      ((notifySignals st rest).1,
        Event.signal (Signal.next a) :: (notifySignals st rest).2) := by
  simp [notifySignals, deliver, h]

theorem notifySignals_step_error (st : SubState σ) (e : JsError ε)
    (rest : List (Signal α (JsError ε))) (h : st.isStopped = false) :
    notifySignals st (Signal.error e :: rest) =
      ((unsubscribe (α := α) (ε := ε) { st with isStopped := true }).1,
        Event.signal (Signal.error e) ::
          (unsubscribe (α := α) (ε := ε) { st with isStopped := true }).2) := by
  simp only [notifySignals, deliver, h, Bool.false_eq_true, if_false]
  rw [notifySignals_stopped _ rest (unsubscribe_isStopped _ rfl)]
  simp

theorem notifySignals_step_complete (st : SubState σ)
    (rest : List (Signal α (JsError ε))) (h : st.isStopped = false) :
    notifySignals st (Signal.complete :: rest) =
      ((unsubscribe (α := α) (ε := ε) { st with isStopped := true }).1,
        Event.signal (Signal.complete (α := α)) ::
          (unsubscribe (α := α) (ε := ε) { st with isStopped := true }).2) := by
  simp only [notifySignals, deliver, h, Bool.false_eq_true, if_false]
  rw [notifySignals_stopped _ rest (unsubscribe_isStopped _ rfl)]
  simp

theorem downstream_notifySignals (st : SubState σ) (sigs : List (Signal α (JsError ε)))
    (h : st.isStopped = false) :
    downstream (notifySignals st sigs).2 = directObservation sigs := by
  induction sigs generalizing st with
  | nil => rfl
  | cons s rest ih =>
      cases s with
      | next a =>
          rw [notifySignals_step_next st a rest h]
          simp [directObservation, ih st h]
      | error e =>
          rw [notifySignals_step_error st e rest h]
          simp [directObservation]
      | complete =>
          rw [notifySignals_step_complete st rest h]
          simp [directObservation]

theorem atMostOneTerminal_directObservation (sigs : List (Signal α β)) :
    atMostOneTerminal (directObservation sigs) = true := by
  induction sigs with
  | nil => rfl
  | cons s rest ih => cases s <;> simp [directObservation, atMostOneTerminal, ih]

theorem hasTerminal_directObservation (sigs : List (Signal α β)) :
    hasTerminal (directObservation sigs) = hasTerminal sigs := by
  induction sigs with
  | nil => rfl
  | cons s rest ih =>
      cases s <;> simp [directObservation, hasTerminal, Signal.isTerminal] at *
      exact ih

theorem unsubscribe_state (st : SubState σ) (hwf : WF st) :
    (unsubscribe (α := α) (ε := ε) st).1.closed = true ∧
      (unsubscribe (α := α) (ε := ε) st).1.children = [] := by
  unfold unsubscribe
  split
  · next hc => exact ⟨hc, hwf hc⟩
  · exact ⟨rfl, rfl⟩

theorem childReleased_injective :
    Function.Injective (Event.childReleased (α := α) (ε := ε)) := by
  intro a b hab
  injection hab

theorem unsubscribe_fst_closed (st : SubState σ) :
    ((unsubscribe (α := α) (ε := ε) st).1).closed = true := by
  unfold unsubscribe
  split
  · next h => exact h
  · rfl

theorem unsubscribe_of_closed (st : SubState σ) (h : st.closed = true) :
    unsubscribe (α := α) (ε := ε) st = (st, []) := by
  unfold unsubscribe
  rw [if_pos h]

theorem notifySignals_terminal_state (st : SubState σ)
    (sigs : List (Signal α (JsError ε))) (hwf : WF st) (h : st.isStopped = false)
    (hterm : hasTerminal sigs = true) :
    (notifySignals st sigs).1.closed = true ∧
      (notifySignals st sigs).1.children = [] := by
  induction sigs generalizing st with
  | nil => cases hterm
  | cons s rest ih =>
      cases s with
      | next a =>
          rw [notifySignals_step_next st a rest h]
          exact ih st hwf h (by simpa [hasTerminal, Signal.isTerminal] using hterm)
      | error e =>
          rw [notifySignals_step_error st e rest h]
          exact unsubscribe_state _ (fun hc => hwf hc)
      | complete =>
          rw [notifySignals_step_complete st rest h]
          exact unsubscribe_state _ (fun hc => hwf hc)

@[simp]
theorem childAdded_filter_map_childReleased (l : List Nat) :
    (l.map (Event.childReleased (α := α) (ε := ε))).filter Event.isChildAdded = [] := by
  induction l with
  | nil => rfl
  | cons i l ih => simp [Event.isChildAdded, ih]

@[simp]
theorem childAdded_filter_unsubscribe (st : SubState σ) :
    ((unsubscribe (α := α) (ε := ε) st).2).filter Event.isChildAdded = [] := by
  unfold unsubscribe
  split
  · rfl
  · simp

@[simp]
theorem childAdded_filter_deliver (st : SubState σ) (s : Signal α (JsError ε)) :
    ((deliver st s).2).filter Event.isChildAdded = [] := by
  unfold deliver
  split
  · rfl
  · cases s <;> simp [Event.isChildAdded]

@[simp]
theorem childAdded_filter_notifySignals (st : SubState σ)
    (sigs : List (Signal α (JsError ε))) :
    ((notifySignals st sigs).2).filter Event.isChildAdded = [] := by
  induction sigs generalizing st with
  | nil => rfl
  | cons s rest ih => simp [notifySignals, ih]

theorem noSignalAfterAdd_cons_of_not_add (e : Event α ε) (rest : List (Event α ε))
    (he : e.isChildAdded = false) :
    noSignalAfterAdd (e :: rest) = noSignalAfterAdd rest := by
  cases e <;> simp_all [noSignalAfterAdd, Event.isChildAdded]

theorem noSignalAfterAdd_append (evs tail : List (Event α ε))
    (h : evs.filter Event.isChildAdded = []) :
    noSignalAfterAdd (evs ++ tail) = noSignalAfterAdd tail := by
  induction evs with
  | nil => rfl
  | cons e evs ih =>
      rw [List.filter_cons] at h
      have he : e.isChildAdded = false := by
        by_cases hb : e.isChildAdded = true
        · simp [hb] at h
        · simpa using hb
      rw [List.cons_append, noSignalAfterAdd_cons_of_not_add _ _ he]
      exact ih (by simpa [he] using h)

theorem noSignalAfterAdd_of_no_add (evs : List (Event α ε))
    (h : evs.filter Event.isChildAdded = []) : noSignalAfterAdd evs = true := by
  have hh := noSignalAfterAdd_append evs [] h
  simpa using hh

theorem noSignalAfterAdd_addChild_tail (evs : List (Event α ε)) (st : SubState σ)
    (id : Nat) (h : evs.filter Event.isChildAdded = []) :
    noSignalAfterAdd (evs ++ (addChild (α := α) (ε := ε) st id).2) = true := by
  rw [noSignalAfterAdd_append _ _ h]
  unfold addChild
  split <;> rfl

end Lemmas

section BranchLemmas

variable {α ε σ : Type}

theorem subscribeRun_throw (arg : FactoryArg α ε σ) (env env' : σ) (e : JsError ε)
    (h : arg.invoke env = (.error e, env')) :
    (DeferObservable.mk arg).subscribeRun env =
      ({ env := env', isStopped := true, closed := true, children := [],
         nextChildId := 0 },
       [Event.factoryInvoked, Event.signal (Signal.error e)]) := by
  unfold DeferObservable.subscribeRun tryDefer callFactory freshState
  simp [h, deliver, unsubscribe]

theorem subscribeRun_falsy (arg : FactoryArg α ε σ) (env env' : σ) (v : JSValue α ε)
    (h : arg.invoke env = (.ok v, env')) (hf : v.truthy = false) :
    (DeferObservable.mk arg).subscribeRun env =
      ({ env := env', isStopped := false, closed := false, children := [],
         nextChildId := 0 },
       [Event.factoryInvoked]) := by
  unfold DeferObservable.subscribeRun tryDefer callFactory freshState
  simp [h, hf]

theorem subscribeRun_badInput (arg : FactoryArg α ε σ) (env env' : σ) (v : JSValue α ε)
    (h : arg.invoke env = (.ok v, env')) (ht : v.truthy = true)
    (hn : normalizeInput v = none) :
    (DeferObservable.mk arg).subscribeRun env =
      ({ env := env', isStopped := true, closed := true, children := [],
         nextChildId := 0 },
       [Event.factoryInvoked, Event.signal (Signal.error JsError.typeError)]) := by
  unfold DeferObservable.subscribeRun tryDefer callFactory freshState subscribeToResult
  simp [h, ht, hn, deliver, unsubscribe]

theorem subscribeRun_normalized (arg : FactoryArg α ε σ) (env env' : σ)
    (v : JSValue α ε) (sigs : List (Signal α (JsError ε)))
    (h : arg.invoke env = (.ok v, env')) (ht : v.truthy = true)
    (hn : normalizeInput v = some sigs) :
    (DeferObservable.mk arg).subscribeRun env =
      ((addChild (α := α) (ε := ε) (notifySignals (postFactoryState env') sigs).1 0).1,
       Event.factoryInvoked ::
         ((notifySignals (postFactoryState env') sigs).2 ++
          (addChild (α := α) (ε := ε)
            (notifySignals (postFactoryState env') sigs).1 0).2)) := by
  unfold DeferObservable.subscribeRun tryDefer callFactory freshState subscribeToResult
  simp [h, ht, hn, postFactoryState]

theorem countFactory_subscribeRun (arg : FactoryArg α ε σ) (env : σ) :
    countFactory ((DeferObservable.mk arg).subscribeRun env).2 = 1 := by
  rcases hr : arg.invoke env with ⟨res, env'⟩
  cases res with
  | error e =>
      rw [subscribeRun_throw arg env env' e hr]
      simp [Event.isFactoryInvoked]
  | ok v =>
      cases hf : v.truthy with
      | false =>
          rw [subscribeRun_falsy arg env env' v hr hf]
          simp [Event.isFactoryInvoked]
      | true =>
          cases hn : normalizeInput v with
          | none =>
              rw [subscribeRun_badInput arg env env' v hr hf hn]
              simp [Event.isFactoryInvoked]
          | some sigs =>
              rw [subscribeRun_normalized arg env env' v sigs hr hf hn]
              simp [Event.isFactoryInvoked]

end BranchLemmas

section Claims

variable {α ε σ : Type}

/-- C1: for every factory argument, constructing a `DeferObservable` (via
`DeferObservable.create` or the constructor) never invokes the factory —
the construction trace contains no factory invocation — while every
`subscribe` call invokes it (exactly once). -/
theorem construction_never_invokes_factory (arg : FactoryArg α ε σ) :
    countFactory (DeferObservable.constructRun arg).2 = 0 ∧
    countFactory (DeferObservable.createRun arg).2 = 0 ∧
    ∀ env : σ, countFactory ((DeferObservable.createRun arg).1.subscribeRun env).2 = 1 := by
  refine ⟨rfl, rfl, fun env => ?_⟩
  exact countFactory_subscribeRun arg env

/-- C2: every `subscribe` call on a `DeferObservable` invokes the factory
exactly once, synchronously, on a freshly constructed `DeferSubscriber`
state; two subscriptions share no state beyond the factory's own external
world — concretely, with a counting factory the first subscriber observes
`1` and the second observes `2`. -/
theorem subscribe_invokes_factory_once_fresh (obs : DeferObservable α ε σ) (env : σ) :
    countFactory (obs.subscribeRun env).2 = 1 ∧
    obs.subscribeRun env = tryDefer obs.observableFactory (freshState env) ∧
    downstream ((DeferObservable.mk
        (FactoryArg.callable counterFactory)).subscribeRun 0).2
      = [Signal.next 1, Signal.complete] ∧
    downstream ((DeferObservable.mk (FactoryArg.callable counterFactory)).subscribeRun
        (((DeferObservable.mk
            (FactoryArg.callable counterFactory)).subscribeRun 0).1.env)).2
      = [Signal.next 2, Signal.complete] := by
  obtain ⟨arg⟩ := obs
  exact ⟨countFactory_subscribeRun arg env, rfl, by decide, by decide⟩

/-- C3: for every factory that throws, the downstream consumer receives
exactly one terminal error signal carrying the thrown value, receives no
value or completion signal, and no child resource is acquired. -/
theorem factory_throw_single_error (f : Factory α ε σ) (env env' : σ) (e : JsError ε)
    (h : f.run env = (.error e, env')) :
    downstream ((DeferObservable.mk
        (FactoryArg.callable f)).subscribeRun env).2 = [Signal.error e] ∧
    ((DeferObservable.mk
        (FactoryArg.callable f)).subscribeRun env).2.filter Event.isChildEvent = [] := by
  rw [subscribeRun_throw (FactoryArg.callable f) env env' e h]
  exact ⟨by simp, rfl⟩

/-- C3 witness: a factory throwing the user error `7` yields exactly the
downstream trace `[error 7]` and acquires no child resource. -/
theorem factory_throw_single_error_witness :
    downstream ((DeferObservable.mk
        (FactoryArg.callable throwFactory)).subscribeRun 0).2
      = [Signal.error (JsError.user 7)] ∧
    ((DeferObservable.mk
        (FactoryArg.callable throwFactory)).subscribeRun 0).2.filter Event.isChildEvent
      = [] :=
  factory_throw_single_error throwFactory 0 0 (JsError.user 7) rfl

/-- C4: for every factory whose invocation returns a falsy value (including
a numeric zero), no inner subscription is attempted: no child resource
event occurs, the downstream consumer observes no call at all, and the
subscriber state stays alive (not stopped, not closed) with the factory's
new world. -/
theorem falsy_result_no_signals (f : Factory α ε σ) (env env' : σ) (v : JSValue α ε)
    (h : f.run env = (.ok v, env')) (hf : v.truthy = false) :
    downstream ((DeferObservable.mk
        (FactoryArg.callable f)).subscribeRun env).2 = [] ∧
    ((DeferObservable.mk
        (FactoryArg.callable f)).subscribeRun env).2.filter Event.isChildEvent = [] ∧
    ((DeferObservable.mk
        (FactoryArg.callable f)).subscribeRun env).1 = freshState env' := by
  rw [subscribeRun_falsy (FactoryArg.callable f) env env' v h hf]
  exact ⟨by simp, rfl, rfl⟩

/-- C4 witness: a factory returning the numeric zero (falsy) produces no
downstream call, no child-resource event, and leaves the subscriber alive. -/
theorem falsy_result_no_signals_witness :
    downstream ((DeferObservable.mk
        (FactoryArg.callable zeroFactory)).subscribeRun 0).2 = [] ∧
    ((DeferObservable.mk
        (FactoryArg.callable zeroFactory)).subscribeRun 0).2.filter Event.isChildEvent
      = [] ∧
    ((DeferObservable.mk
        (FactoryArg.callable zeroFactory)).subscribeRun 0).1 = freshState 0 :=
  falsy_result_no_signals zeroFactory 0 0 (JSValue.vnum 0) rfl rfl

/-- C5: for any sequence of inner-producer signals delivered to a
well-formed `DeferSubscriber` state, the downstream consumer receives at
most one terminal signal and no signal of any kind after it, and once a
terminal signal has been forwarded the subscriber is closed and owns no
child resources. -/
theorem at_most_one_terminal_downstream (st : SubState σ)
    (sigs : List (Signal α (JsError ε))) (hwf : WF st) :
    atMostOneTerminal (downstream (notifySignals st sigs).2) = true ∧
    (hasTerminal (downstream (notifySignals st sigs).2) = true →
      (notifySignals st sigs).1.closed = true ∧
        (notifySignals st sigs).1.children = []) := by
  cases hs : st.isStopped with
  | false =>
      rw [downstream_notifySignals st sigs hs]
      refine ⟨atMostOneTerminal_directObservation sigs, fun hterm => ?_⟩
      rw [hasTerminal_directObservation] at hterm
      exact notifySignals_terminal_state st sigs hwf hs hterm
  | true =>
      rw [notifySignals_stopped st sigs hs]
      refine ⟨rfl, fun hterm => ?_⟩
      simp [downstream, hasTerminal] at hterm

/-- C5 witness: an ill-behaved inner feed that keeps signalling after its
first terminal still reaches downstream as a conformant sequence, and the
subscriber ends closed with no children. -/
theorem at_most_one_terminal_downstream_witness :
    atMostOneTerminal (downstream (notifySignals (freshState 0)
      [Signal.next 5, Signal.complete, Signal.next 6,
       Signal.error (JsError.user 1)]).2) = true ∧
    (hasTerminal (downstream (notifySignals (freshState 0)
      [Signal.next 5, Signal.complete, Signal.next 6,
       Signal.error (JsError.user 1)]).2) = true →
      (notifySignals (freshState 0)
        [Signal.next 5, Signal.complete, Signal.next 6,
         Signal.error (JsError.user 1)]).1.closed = true ∧
      (notifySignals (freshState 0)
        [Signal.next 5, Signal.complete, Signal.next 6,
         Signal.error (JsError.user 1)]).1.children = []) :=
  at_most_one_terminal_downstream (freshState 0)
    [Signal.next 5, Signal.complete, Signal.next 6,
     Signal.error (JsError.user 1)] (by simp [WF, freshState])

/-- C6: releasing a `DeferSubscriber` is idempotent (a second release is a
no-op), releases each owned child resource exactly once, and is a no-op
with respect to child resources when no child resource exists. -/
theorem release_idempotent_exactly_once [DecidableEq α] [DecidableEq ε]
    (st : SubState σ) (hnd : st.children.Nodup) :
    unsubscribe (α := α) (ε := ε) ((unsubscribe (α := α) (ε := ε) st).1)
      = ((unsubscribe (α := α) (ε := ε) st).1, ([] : List (Event α ε))) ∧
    (st.closed = false → ∀ id ∈ st.children,
      ((unsubscribe (α := α) (ε := ε) st).2).count (Event.childReleased id) = 1) ∧
    (st.children = [] →
      (unsubscribe (α := α) (ε := ε) st).2 = ([] : List (Event α ε))) := by
  refine ⟨unsubscribe_of_closed _ (unsubscribe_fst_closed st), ?_, ?_⟩
  · intro hcl id hid
    unfold unsubscribe
    rw [if_neg (by simp [hcl])]
    show (st.children.map Event.childReleased).count (Event.childReleased id) = 1
    rw [List.count_map_of_injective st.children Event.childReleased
      childReleased_injective id]
    exact List.count_eq_one_of_mem hnd hid
  · intro h
    unfold unsubscribe
    split
    · rfl
    · simp [h]

/-- C6 witness: releasing a live subscriber owning children `0` and `1`
releases each exactly once; a second release does nothing; and releasing a
childless subscriber produces no child event. -/
theorem release_idempotent_exactly_once_witness :
    unsubscribe (α := Nat) (ε := Nat)
        ((unsubscribe (α := Nat) (ε := Nat)
          (⟨0, false, false, [0, 1], 2⟩ : SubState Nat)).1)
      = ((unsubscribe (α := Nat) (ε := Nat)
          (⟨0, false, false, [0, 1], 2⟩ : SubState Nat)).1,
         ([] : List (Event Nat Nat))) ∧
    ((⟨0, false, false, [0, 1], 2⟩ : SubState Nat).closed = false →
      ∀ id ∈ (⟨0, false, false, [0, 1], 2⟩ : SubState Nat).children,
        ((unsubscribe (α := Nat) (ε := Nat)
          (⟨0, false, false, [0, 1], 2⟩ : SubState Nat)).2).count
            (Event.childReleased id) = 1) ∧
    ((⟨0, false, false, [0, 1], 2⟩ : SubState Nat).children = [] →
      (unsubscribe (α := Nat) (ε := Nat)
        (⟨0, false, false, [0, 1], 2⟩ : SubState Nat)).2
        = ([] : List (Event Nat Nat))) :=
  release_idempotent_exactly_once (⟨0, false, false, [0, 1], 2⟩ : SubState Nat)
    (by decide)

/-- C7: if the factory returns a truthy value the normalization
collaborator cannot interpret, the synchronously raised error is caught by
the containment boundary in `tryDefer` and surfaced downstream as a single
terminal error signal. -/
theorem normalization_error_surfaced (f : Factory α ε σ) (env env' : σ)
    (v : JSValue α ε) (h : f.run env = (.ok v, env')) (ht : v.truthy = true)
    (hn : normalizeInput v = none) :
    downstream ((DeferObservable.mk
        (FactoryArg.callable f)).subscribeRun env).2
      = [Signal.error JsError.typeError] := by
  rw [subscribeRun_badInput (FactoryArg.callable f) env env' v h ht hn]
  simp

/-- C7 witness: a factory returning the number `1` (truthy, not a producer
input) makes downstream observe exactly one `TypeError` terminal error. -/
theorem normalization_error_surfaced_witness :
    downstream ((DeferObservable.mk
        (FactoryArg.callable oneFactory)).subscribeRun 0).2
      = [Signal.error JsError.typeError] :=
  normalization_error_surfaced oneFactory 0 0 (JSValue.vnum 1) rfl rfl rfl

/-- C8: when the factory returns an already-conformant producer, the signal
sequence observed downstream equals the sequence observed by subscribing to
that producer directly — same values, same order, same terminal kind. -/
theorem pass_through_identity (f : Factory α ε σ) (env env' : σ)
    (sigs : List (Signal α (JsError ε)))
    (h : f.run env = (.ok (.vobs sigs), env')) :
    downstream ((DeferObservable.mk
        (FactoryArg.callable f)).subscribeRun env).2 = directObservation sigs := by
  rw [subscribeRun_normalized (FactoryArg.callable f) env env'
    (JSValue.vobs sigs) sigs h rfl rfl]
  rw [downstream_cons_factoryInvoked, downstream_append, downstream_addChild,
    downstream_notifySignals _ sigs rfl]
  simp

/-- C8 witness: a factory returning a producer pushing `1, 2, 3` then
completing delegates exactly the direct observation of that producer. -/
theorem pass_through_identity_witness :
    downstream ((DeferObservable.mk
        (FactoryArg.callable threeFactory)).subscribeRun 0).2
      = directObservation
          [Signal.next 1, Signal.next 2, Signal.next 3, Signal.complete] :=
  pass_through_identity threeFactory 0 0
    [Signal.next 1, Signal.next 2, Signal.next 3, Signal.complete] rfl

/-- C9: `DeferObservable.create` and the constructor accept any factory
argument without validation and never throw or perform any event; a
non-callable factory fails only at subscribe time, where the invocation
error is caught and delivered as a terminal error signal. -/
theorem create_no_validation (arg : FactoryArg α ε σ) (env : σ) :
    DeferObservable.createRun arg
      = (DeferObservable.mk arg, ([] : List (Event α ε))) ∧
    DeferObservable.constructRun arg
      = (DeferObservable.mk arg, ([] : List (Event α ε))) ∧
    downstream ((DeferObservable.mk
        (FactoryArg.notCallable : FactoryArg α ε σ)).subscribeRun env).2
      = [Signal.error JsError.typeError] := by
  refine ⟨rfl, rfl, ?_⟩
  rw [subscribeRun_throw FactoryArg.notCallable env env JsError.typeError rfl]
  simp

/-- C10: in every subscribe trace, all calls on the downstream consumer
happen before the child resource is registered (`add` runs only after
`subscribeToResult` returns); in particular, when the inner producer
terminates synchronously, the child resource is never registered at all and
teardown copes without it. -/
theorem signals_before_child_registration (obs : DeferObservable α ε σ) (env : σ) :
    noSignalAfterAdd (obs.subscribeRun env).2 = true ∧
    (hasTerminal (downstream (obs.subscribeRun env).2) = true →
      ((obs.subscribeRun env).2).filter Event.isChildAdded = []) := by
  obtain ⟨arg⟩ := obs
  rcases hr : arg.invoke env with ⟨res, env'⟩
  cases res with
  | error e =>
      rw [subscribeRun_throw arg env env' e hr]
      exact ⟨rfl, fun _ => rfl⟩
  | ok v =>
      cases hf : v.truthy with
      | false =>
          rw [subscribeRun_falsy arg env env' v hr hf]
          exact ⟨rfl, fun _ => rfl⟩
      | true =>
          cases hn : normalizeInput v with
          | none =>
              rw [subscribeRun_badInput arg env env' v hr hf hn]
              exact ⟨rfl, fun _ => rfl⟩
          | some sigs =>
              rw [subscribeRun_normalized arg env env' v sigs hr hf hn]
              constructor
              · rw [noSignalAfterAdd_cons_of_not_add Event.factoryInvoked _ rfl]
                exact noSignalAfterAdd_addChild_tail _ _ _
                  (childAdded_filter_notifySignals _ _)
              · intro hterm
                rw [downstream_cons_factoryInvoked, downstream_append,
                  downstream_addChild, List.append_nil,
                  downstream_notifySignals _ sigs rfl,
                  hasTerminal_directObservation] at hterm
                have hstate := notifySignals_terminal_state (postFactoryState env')
                  sigs (by simp [WF, postFactoryState]) rfl hterm
                have hadd : addChild (α := α) (ε := ε)
                    (notifySignals (postFactoryState env') sigs).1 0
                    = ((notifySignals (postFactoryState env') sigs).1,
                       [Event.childReleased 0]) := by
                  unfold addChild
                  rw [if_pos hstate.1]
                rw [hadd]
                simp [Event.isChildAdded]

/-- C10 witness: with a factory returning a producer that completes
synchronously, all downstream calls precede any registration, and the
synchronous terminal means no child resource is ever registered. -/
theorem signals_before_child_registration_witness :
    noSignalAfterAdd ((DeferObservable.mk
        (FactoryArg.callable threeFactory)).subscribeRun 1).2 = true ∧
    (hasTerminal (downstream ((DeferObservable.mk
        (FactoryArg.callable threeFactory)).subscribeRun 1).2) = true →
      (((DeferObservable.mk
        (FactoryArg.callable threeFactory)).subscribeRun 1).2).filter
          Event.isChildAdded = []) :=
  signals_before_child_registration
    (DeferObservable.mk (FactoryArg.callable threeFactory)) 1

end Claims

end DeferSpec
